import Mathlib

/-!
Verification of the taxi-demand forecasting pipeline.

The repository's own code (src/config.py, src/data_loader.py, src/utils.py)
is thin orchestration around library calls.  We embed it shallowly:

* Python floats that may be `None`/`NaN` become the inductive `PyFloat`.
* Library calls that may raise (`h3.geo_to_h3`, `h3.h3_to_geo_boundary`,
  `h3.h3_to_geo`, `pd.read_csv`, `gpd.read_file`) are passed in as explicit
  function parameters returning `Except`, so the wrappers' try/except
  control flow is quantified over every possible library behaviour.
* Raising is modelled by an `Except.error` result; a wrapper that cannot
  raise is total and returns an `Option`.
* The filesystem is a function from paths to optional file contents.

The aggregation / feature-engineering stage is described by the spec but its
code is not in the repository; the corresponding definitions below are
modelled from the spec and marked as such in their doc comments.
-/

namespace TaxiDemand

/-- A Python value standing for a latitude/longitude argument: it can be
`None`, `NaN`, or a finite number (modelled by an integer-valued coordinate,
since the pipeline never does arithmetic on coordinates). -/
inductive PyFloat where
  | null
  | nan
  | num (q : Int)
deriving DecidableEq

/-- Embedding of `pd.isna`: true exactly on `None` and `NaN`. -/
def PyFloat.isna : PyFloat → Bool
  | .null => true
  | .nan => true
  | .num _ => false

/-- An opaque H3 cell identifier. -/
abbrev CellId := Nat

/-- Errors the `h3` library can raise: `H3CellInputError` for out-of-range
coordinates, `TypeError` for non-float arguments, or anything else. -/
inductive H3Error where
  | cellInputError
  | typeError
  | other
deriving DecidableEq

/-- Embedding of `geo_to_h3_safe` (src/src/utils.py, lines 18-26).
`h3_geo_to_h3` is the library function `h3.geo_to_h3`, passed in explicitly
with every possible raising behaviour (`Except.error` models a raise).
The Python body is
`try: if pd.isna(lat) or pd.isna(lon): return None; return h3.geo_to_h3(lat, lon, resolution) except Exception: return None`. -/
def geo_to_h3_safe (h3_geo_to_h3 : PyFloat → PyFloat → Nat → Except H3Error CellId)
    (lat lon : PyFloat) (resolution : Nat) : Option CellId :=
  if lat.isna || lon.isna then
    Option.none
  else
    match h3_geo_to_h3 lat lon resolution with
    | .ok c => some c
    | .error _ => Option.none

/-- A GeoJSON Feature as built by `get_h3_boundary_geojson`: a dict with
key "type" mapped to "Feature", key "geometry" mapped to a dict with its
own "type" ("Polygon") and "coordinates" (a list of rings), and key
"properties" mapped to a dict whose "id" is the cell id.
Coordinates are integer-valued pairs (the pipeline never computes with them). -/
structure GeoJSONFeature where
  type : String
  geometryType : String
  coordinates : List (List (Int × Int))
  propertiesId : CellId
deriving DecidableEq

/-- Embedding of `get_h3_boundary_geojson` (src/src/utils.py, lines 28-36).
`h3_to_geo_boundary` is the library function `h3.h3_to_geo_boundary`; its
`Bool` argument is the `geo_json` keyword flag.  On a raise the wrapper logs
a warning (not modelled) and returns `None`. -/
def get_h3_boundary_geojson
    (h3_to_geo_boundary : CellId → Bool → Except H3Error (List (Int × Int)))
    (h3_index : CellId) : Option GeoJSONFeature :=
  match h3_to_geo_boundary h3_index true with
  | .ok boundary =>
      some { type := "Feature", geometryType := "Polygon",
             coordinates := [boundary], propertiesId := h3_index }
  | .error _ => Option.none

/-- Embedding of `get_h3_centroid` (src/src/utils.py, lines 38-45).
`h3_to_geo` is the library function `h3.h3_to_geo` returning a
`(lat, lon)` pair.  On a raise the wrapper returns `(None, None)`. -/
def get_h3_centroid (h3_to_geo : CellId → Except H3Error (Int × Int))
    (h3_index : CellId) : Option Int × Option Int :=
  match h3_to_geo h3_index with
  | .ok p => (some p.1, some p.2)
  | .error _ => (Option.none, Option.none)

/-- A Shapely polygon, reduced to the list of vertices it was built from. -/
structure SPolygon where
  vertices : List (Int × Int)
deriving DecidableEq

/-- Embedding of `h3_to_polygon` (src/src/utils.py, lines 47-55).
`h3.h3_to_geo_boundary(h3_index, geo_json=False)` returns `(lat, lon)`
tuples; the wrapper builds `Polygon([(lon, lat) for lat, lon in boundary])`,
swapping each pair.  On a raise it returns `None`. -/
def h3_to_polygon
    (h3_to_geo_boundary : CellId → Bool → Except H3Error (List (Int × Int)))
    (h3_index : CellId) : Option SPolygon :=
  match h3_to_geo_boundary h3_index false with
  | .ok boundary => some { vertices := boundary.map (fun p => (p.2, p.1)) }
  | .error _ => Option.none

/-! ## Data loader (src/src/data_loader.py) -/

/-- A filesystem path. -/
abbrev FsPath := String

/-- Raw bytes of a file, left opaque. -/
abbrev FileContent := String

/-- Path constant from src/src/config.py (relative to the project root). -/
def RAW_TAXI_DATA_FILE : FsPath := "data/yellow_tripdata_2015-01.csv"

/-- Path constant from src/src/config.py (relative to the project root). -/
def BOROUGHS_FILE_PATH : FsPath := "data/borough.geo.json"

/-- A pandas DataFrame, reduced to the content it was parsed from. -/
structure DataFrame where
  content : FileContent
deriving DecidableEq

/-- A geopandas GeoDataFrame of boundary polygons, reduced to the content it
was parsed from. -/
structure GeoDataFrame where
  content : FileContent
deriving DecidableEq

/-- Exceptions `load_raw_taxi_data` can raise: `FileNotFoundError` when the
raw file is absent, or whatever `pd.read_csv` raises (propagated uncaught). -/
inductive LoadError where
  | fileNotFoundError (msg : String)
  | readCsvError (msg : String)
deriving DecidableEq

/-- Embedding of `load_raw_taxi_data` (src/src/data_loader.py, lines 7-18).
`fs` maps a path to its content when the file exists; `read_csv` is
`pd.read_csv`, whose raises propagate uncaught.  The Python body checks
`RAW_TAXI_DATA_FILE.exists()`, logs, and raises `FileNotFoundError` when the
file is absent; otherwise it parses and returns the DataFrame. -/
def load_raw_taxi_data (read_csv : FileContent → Except String DataFrame)
    (fs : FsPath → Option FileContent) : Except LoadError DataFrame :=
  match fs RAW_TAXI_DATA_FILE with
  | Option.none =>
      Except.error (LoadError.fileNotFoundError
        ("Raw taxi data file not found: " ++ RAW_TAXI_DATA_FILE))
  | some content =>
      match read_csv content with
      | .ok df => .ok df
      | .error e => .error (.readCsvError e)

/-- Embedding of `load_borough_boundaries` (src/src/data_loader.py,
lines 20-40).  `read_file` is `gpd.read_file`.  A missing file logs and
returns `None`; a parse failure is caught, logged and returns `None`;
otherwise the parsed GeoDataFrame is returned. -/
def load_borough_boundaries (read_file : FileContent → Except String GeoDataFrame)
    (fs : FsPath → Option FileContent) : Option GeoDataFrame :=
  match fs BOROUGHS_FILE_PATH with
  | Option.none => Option.none
  | some content =>
      match read_file content with
      | .ok gdf => some gdf
      | .error _ => Option.none

/-! ## Demand aggregation, densification and lag features

The aggregation / feature-engineering stage is specified in spec.md
(sections 4.3 and 4.4) but its source file is not in the repository;
the definitions below are modelled from the spec. -/

/-- Modelled from the spec: a trip record after cell assignment and flooring
of its pickup timestamp to the hour (`aggregate` input; the missing
aggregation module).  `hour` counts hours from an arbitrary epoch. -/
structure TripEvent where
  cell : CellId
  hour : Nat
deriving DecidableEq

/-- Modelled from the spec: one row of the demand grid, keyed by
(cell, hour-aligned timestamp) with a trip count (the missing aggregation
module's output record). -/
structure GridRow where
  cell : CellId
  hour : Nat
  demand : Nat
deriving DecidableEq

/-- Modelled from the spec: the aggregation count — the number of trips that
fall in the given cell and hour bucket. -/
def demandCount (trips : List TripEvent) (c : CellId) (h : Nat) : Nat :=
  (trips.filter (fun t => t.cell == c && t.hour == h)).length

/-- Modelled from the spec: the cells that appear at least once. -/
def cellsOf (trips : List TripEvent) : List CellId :=
  (trips.map TripEvent.cell).dedup

/-- Modelled from the spec: the earliest observed hour (0 when no trips). -/
def minHour (trips : List TripEvent) : Nat :=
  ((trips.map TripEvent.hour).min?).getD 0

/-- Modelled from the spec: the latest observed hour (0 when no trips). -/
def maxHour (trips : List TripEvent) : Nat :=
  ((trips.map TripEvent.hour).max?).getD 0

/-- Modelled from the spec: "the full observed time span" — one entry per
hour from the earliest to the latest observed hour, inclusive. -/
def hourSpan (trips : List TripEvent) : List Nat :=
  List.range' (minHour trips) (maxHour trips + 1 - minHour trips)

/-- Modelled from the spec: `aggregate` followed by densification — for
every cell that appears at least once, one row per hour across the full
observed time span, with unseen (cell, hour) pairs filled with demand 0
(their `demandCount` is 0). -/
def aggregateDensify (trips : List TripEvent) : List GridRow :=
  (cellsOf trips).flatMap (fun c =>
    (hourSpan trips).map (fun h => GridRow.mk c h (demandCount trips c h)))

/-- Modelled from the spec: the densified per-cell demand series, ordered by
hour (the column a pandas per-cell `shift` would operate on). -/
def cellSeries (trips : List TripEvent) (c : CellId) : List Nat :=
  (hourSpan trips).map (demandCount trips c)

/-- Modelled from the spec: a positional shift by `H` rows within one
cell's series, as a pandas groupby-shift computes a lag column: the first
`H` entries are missing, entry `i` (for `H ≤ i`) is entry `i - H` of the
input. -/
def shiftLag (H : Nat) (xs : List Nat) : List (Option Nat) :=
  List.replicate (min H xs.length) Option.none
    ++ (xs.take (xs.length - H)).map some

/-- Modelled from the spec: one row of the feature table after
`add_lag_features` for a single horizon: the grid row plus its lag column. -/
structure FeatRow where
  cell : CellId
  hour : Nat
  demand : Nat
  lag : Option Nat
deriving DecidableEq

/-- Modelled from the spec: `add_lag_features` for one horizon `H`,
computed per cell on the densified grid by pairing each cell's hours with
the positionally shifted demand series. -/
def add_lag_feature (H : Nat) (trips : List TripEvent) : List FeatRow :=
  (cellsOf trips).flatMap (fun c =>
    ((hourSpan trips).zip (shiftLag H (cellSeries trips c))).map
      (fun p => FeatRow.mk c p.1 (demandCount trips c p.1) p.2))

/-- Modelled from the spec: whether a (cell, hour) pair was seen among the
raw trips (a "previously unseen" pair is one with no matching trip). -/
def seen (trips : List TripEvent) (c : CellId) (h : Nat) : Bool :=
  trips.any (fun t => t.cell == c && t.hour == h)

/-! ## Helper lemmas about the densified grid -/

theorem mem_hourSpan {trips : List TripEvent} {h : Nat} :
    h ∈ hourSpan trips ↔
      minHour trips ≤ h ∧
        h < minHour trips + (maxHour trips + 1 - minHour trips) :=
  List.mem_range'_1

theorem mem_aggregateDensify {trips : List TripEvent} {c : CellId}
    {h d : Nat} :
    GridRow.mk c h d ∈ aggregateDensify trips ↔
      c ∈ cellsOf trips ∧ h ∈ hourSpan trips
        ∧ d = demandCount trips c h := by
  simp only [aggregateDensify, List.mem_flatMap, List.mem_map,
    GridRow.mk.injEq]
  constructor
  · rintro ⟨c', hc', h', hh', hceq, hheq, hdeq⟩
    subst hceq; subst hheq; subst hdeq
    exact ⟨hc', hh', rfl⟩
  · rintro ⟨hc, hh, hd⟩
    exact ⟨c, hc, h, hh, rfl, rfl, hd.symm⟩

theorem demandCount_eq_zero_of_not_seen {trips : List TripEvent}
    {c : CellId} {h : Nat} (hns : seen trips c h = false) :
    demandCount trips c h = 0 := by
  rw [demandCount, List.length_eq_zero, List.filter_eq_nil_iff]
  rw [seen, List.any_eq_false] at hns
  exact hns

theorem shiftLag_length (H : Nat) (xs : List Nat) :
    (shiftLag H xs).length = xs.length := by
  simp only [shiftLag, List.length_append, List.length_replicate,
    List.length_map, List.length_take]
  omega

theorem shiftLag_getElem_of_lt (H : Nat) (xs : List Nat) (i : Nat)
    (hi : i < (shiftLag H xs).length) (hiH : i < H) :
    (shiftLag H xs)[i] = Option.none := by
  have hx : i < xs.length := by rw [shiftLag_length] at hi; exact hi
  simp only [shiftLag, List.getElem_append, List.length_replicate]
  split
  · exact List.getElem_replicate _ _
  · omega

theorem shiftLag_getElem_of_ge (H : Nat) (xs : List Nat) (i : Nat)
    (hi : i < (shiftLag H xs).length) (hiH : H ≤ i)
    (hsub : i - H < xs.length) :
    (shiftLag H xs)[i] = some xs[i - H] := by
  have hx : i < xs.length := by rw [shiftLag_length] at hi; exact hi
  have hmin : min H xs.length = H := by omega
  simp only [shiftLag, List.getElem_append, List.length_replicate, hmin]
  split
  · omega
  · rw [List.getElem_map, List.getElem_take]

theorem hourSpan_length (trips : List TripEvent) :
    (hourSpan trips).length = maxHour trips + 1 - minHour trips :=
  List.length_range' _ _ _

theorem hourSpan_getElem (trips : List TripEvent) (i : Nat)
    (hi : i < (hourSpan trips).length) :
    (hourSpan trips)[i] = minHour trips + i := by
  simp only [hourSpan]
  rw [List.getElem_range']
  omega

theorem cellSeries_length (trips : List TripEvent) (c : CellId) :
    (cellSeries trips c).length = (hourSpan trips).length :=
  List.length_map _ _

theorem cellSeries_getElem (trips : List TripEvent) (c : CellId) (i : Nat)
    (hi : i < (cellSeries trips c).length) :
    (cellSeries trips c)[i] = demandCount trips c (minHour trips + i) := by
  have hi2 : i < (hourSpan trips).length := by
    rw [← cellSeries_length trips c]; exact hi
  simp only [cellSeries, List.getElem_map]
  rw [hourSpan_getElem trips i hi2]

/-! ## Claim C1 -/

/-- Claim C1: for every input (lat, lon, resolution) and every behaviour of
the H3 library, `geo_to_h3_safe` never raises (it is total with an `Option`
result): a null/NaN latitude or longitude yields `none`; a raising H3
conversion yields `none`; otherwise it returns the H3 cell id the library
computed for the coordinates at the given resolution. -/
theorem geo_to_h3_safe_never_raises
    (f : PyFloat → PyFloat → Nat → Except H3Error CellId)
    (lat lon : PyFloat) (resolution : Nat) :
    ((lat.isna || lon.isna) = true →
      geo_to_h3_safe f lat lon resolution = Option.none) ∧
    (∀ e, f lat lon resolution = Except.error e →
      geo_to_h3_safe f lat lon resolution = Option.none) ∧
    (∀ c, (lat.isna || lon.isna) = false → f lat lon resolution = Except.ok c →
      geo_to_h3_safe f lat lon resolution = some c) := by
  refine ⟨fun h => by simp [geo_to_h3_safe, h], fun e he => ?_, fun c h hc => by
    simp [geo_to_h3_safe, h, hc]⟩
  by_cases h : (lat.isna || lon.isna) = true
  · simp [geo_to_h3_safe, h]
  · simp [geo_to_h3_safe, h, he]

/-- Witness for C1: the three cases at concrete inputs — NaN latitude, a
raising conversion, and a successful conversion. -/
theorem geo_to_h3_safe_never_raises_witness :
    geo_to_h3_safe (fun _ _ _ => Except.ok 7) PyFloat.nan (PyFloat.num 3) 9
        = Option.none ∧
    geo_to_h3_safe (fun _ _ _ => Except.error H3Error.cellInputError)
        (PyFloat.num 1) (PyFloat.num 2) 9 = Option.none ∧
    geo_to_h3_safe (fun _ _ _ => Except.ok 7) (PyFloat.num 1) (PyFloat.num 2) 9
        = some 7 :=
  ⟨(geo_to_h3_safe_never_raises (fun _ _ _ => Except.ok 7)
      PyFloat.nan (PyFloat.num 3) 9).1 (by decide),
   (geo_to_h3_safe_never_raises (fun _ _ _ => Except.error H3Error.cellInputError)
      (PyFloat.num 1) (PyFloat.num 2) 9).2.1 H3Error.cellInputError rfl,
   (geo_to_h3_safe_never_raises (fun _ _ _ => Except.ok 7)
      (PyFloat.num 1) (PyFloat.num 2) 9).2.2 7 (by decide) rfl⟩

/-! ## Claim C2 -/

/-- Claim C2 (spec-modelled): after aggregation with densification, for
every cell that appears in the output grid (witnessed by two of its rows),
every hour between the hours of those two rows also has a row for that cell
— the cell's hours are gap-free between its minimum and maximum observed
hour — and when the (cell, hour) pair was previously unseen among the
trips, that row carries demand 0. -/
theorem densification_contiguous
    (trips : List TripEvent) (c : CellId) (h₁ h₂ h d₁ d₂ : Nat)
    (m₁ : GridRow.mk c h₁ d₁ ∈ aggregateDensify trips)
    (m₂ : GridRow.mk c h₂ d₂ ∈ aggregateDensify trips)
    (hl : h₁ ≤ h) (hr : h ≤ h₂) :
    GridRow.mk c h (demandCount trips c h) ∈ aggregateDensify trips ∧
    (seen trips c h = false →
      GridRow.mk c h 0 ∈ aggregateDensify trips) := by
  obtain ⟨hc, hh₁, -⟩ := mem_aggregateDensify.mp m₁
  obtain ⟨-, hh₂, -⟩ := mem_aggregateDensify.mp m₂
  obtain ⟨ha₁, hb₁⟩ := mem_hourSpan.mp hh₁
  obtain ⟨ha₂, hb₂⟩ := mem_hourSpan.mp hh₂
  have hmem : h ∈ hourSpan trips := mem_hourSpan.mpr ⟨by omega, by omega⟩
  refine ⟨mem_aggregateDensify.mpr ⟨hc, hmem, rfl⟩, fun hns => ?_⟩
  exact mem_aggregateDensify.mpr
    ⟨hc, hmem, (demandCount_eq_zero_of_not_seen hns).symm⟩

/-- Witness for C2: two trips in cell 5 at hours 0 and 2; the densified grid
contains the unseen intermediate hour 1 with demand 0. -/
theorem densification_contiguous_witness :
    GridRow.mk 5 1 0 ∈
      aggregateDensify [TripEvent.mk 5 0, TripEvent.mk 5 2] :=
  (densification_contiguous [TripEvent.mk 5 0, TripEvent.mk 5 2]
      5 0 2 1 1 1 (by decide) (by decide) (by decide) (by decide)).2
    (by decide)

/-! ## Claim C3 -/

/-- Claim C3 (spec-modelled): for every lag horizon `H`, every row of the
lag-featured densified grid — cell `c`, hour `h` — has its lag column equal
to `some v` exactly when the same cell's densified-grid row at hour
`h - H` exists and carries demand `v`; in particular the lag is missing
(`none`, not zero) when no row at `h - H` exists for that cell. -/
theorem lag_feature_correct (trips : List TripEvent) (H : Nat)
    (c : CellId) (h d : Nat) (lg : Option Nat)
    (hr : FeatRow.mk c h d lg ∈ add_lag_feature H trips) (v : Nat) :
    lg = some v ↔
      ∃ hp, hp + H = h ∧ GridRow.mk c hp v ∈ aggregateDensify trips := by
  simp only [add_lag_feature, List.mem_flatMap, List.mem_map,
    FeatRow.mk.injEq] at hr
  obtain ⟨c', hc', p, hpmem, hceq, hheq, hdeq, hlgeq⟩ := hr
  subst hceq
  obtain ⟨ph, plg⟩ := p
  simp only at hheq hlgeq
  subst hheq
  subst hlgeq
  rw [List.mem_iff_getElem] at hpmem
  obtain ⟨i, hi, hpi⟩ := hpmem
  have hslen : (hourSpan trips).length = maxHour trips + 1 - minHour trips :=
    hourSpan_length trips
  have hclen : (cellSeries trips c').length = (hourSpan trips).length :=
    cellSeries_length trips c'
  have hshlen : (shiftLag H (cellSeries trips c')).length
      = (hourSpan trips).length := by
    rw [shiftLag_length]; exact hclen
  have hzlen : ((hourSpan trips).zip
      (shiftLag H (cellSeries trips c'))).length = (hourSpan trips).length := by
    rw [List.length_zip, hshlen]; omega
  have hi2 : i < (hourSpan trips).length := by rw [hzlen] at hi; exact hi
  have hi3 : i < (shiftLag H (cellSeries trips c')).length := by
    rw [hshlen]; exact hi2
  rw [List.getElem_zip, Prod.mk.injEq] at hpi
  obtain ⟨hh, hlg⟩ := hpi
  rw [hourSpan_getElem trips i hi2] at hh
  by_cases hiH : i < H
  · have hnone : plg = Option.none := by
      rw [← hlg]; exact shiftLag_getElem_of_lt H _ i hi3 hiH
    subst hnone
    constructor
    · intro hcontra; exact Option.noConfusion hcontra
    · rintro ⟨hp, hpH, hmemrow⟩
      obtain ⟨-, hsp, -⟩ := mem_aggregateDensify.mp hmemrow
      obtain ⟨hge, -⟩ := mem_hourSpan.mp hsp
      omega
  · have hsub : i - H < (cellSeries trips c').length := by
      rw [hclen]; omega
    have hsome : plg = some (demandCount trips c' (minHour trips + (i - H))) := by
      rw [← hlg, shiftLag_getElem_of_ge H _ i hi3 (by omega) hsub,
        cellSeries_getElem trips c' (i - H) hsub]
    subst hsome
    constructor
    · intro hv
      rw [Option.some.injEq] at hv
      refine ⟨minHour trips + (i - H), by omega,
        mem_aggregateDensify.mpr ⟨hc', mem_hourSpan.mpr ⟨by omega, by omega⟩,
          ?_⟩⟩
      exact hv.symm
    · rintro ⟨hp, hpH, hmemrow⟩
      obtain ⟨-, hsp, hdem⟩ := mem_aggregateDensify.mp hmemrow
      obtain ⟨hge, hlt⟩ := mem_hourSpan.mp hsp
      have hpeq : hp = minHour trips + (i - H) := by omega
      rw [Option.some.injEq]
      rw [hpeq] at hdem
      exact hdem.symm

/-- Witness for C3: two trips in cell 5 at hours 0 and 2; in the lag-1
feature table, the row at hour 1 has lag `some 1`, matching the demand of
the row at hour 0. -/
theorem lag_feature_correct_witness :
    (some 1 = some 1 ↔
      ∃ hp, hp + 1 = 1 ∧ GridRow.mk 5 hp 1 ∈
        aggregateDensify [TripEvent.mk 5 0, TripEvent.mk 5 2]) :=
  lag_feature_correct [TripEvent.mk 5 0, TripEvent.mk 5 2] 1 5 1 0 (some 1)
    (by decide) 1

/-! ## Claim C4 -/

/-- Claim C4: when the raw trip-data file does not exist, loading trip
records raises `FileNotFoundError` — an `Except.error` result, so no value
is returned, with no retry and no fallback. -/
theorem load_raw_taxi_data_missing_file
    (read_csv : FileContent → Except String DataFrame)
    (fs : FsPath → Option FileContent)
    (hmiss : fs RAW_TAXI_DATA_FILE = Option.none) :
    load_raw_taxi_data read_csv fs =
      Except.error (LoadError.fileNotFoundError
        ("Raw taxi data file not found: " ++ RAW_TAXI_DATA_FILE)) := by
  simp [load_raw_taxi_data, hmiss]

/-- Witness for C4: an empty filesystem at a concrete `read_csv`. -/
theorem load_raw_taxi_data_missing_file_witness :
    load_raw_taxi_data (fun c => Except.ok (DataFrame.mk c))
        (fun _ => Option.none) =
      Except.error (LoadError.fileNotFoundError
        ("Raw taxi data file not found: " ++ RAW_TAXI_DATA_FILE)) :=
  load_raw_taxi_data_missing_file (fun c => Except.ok (DataFrame.mk c))
    (fun _ => Option.none) rfl

/-! ## Claim C5 -/

/-- Claim C5: loading boundary polygons never propagates an error (the
function is total with an `Option` result, for every behaviour of the
parser): a missing boundary file yields `none`, a failing parse yields
`none`, and a successful parse yields the parsed polygons. -/
theorem load_borough_boundaries_never_raises
    (read_file : FileContent → Except String GeoDataFrame)
    (fs : FsPath → Option FileContent) :
    (fs BOROUGHS_FILE_PATH = Option.none →
      load_borough_boundaries read_file fs = Option.none) ∧
    (∀ content e, fs BOROUGHS_FILE_PATH = some content →
      read_file content = Except.error e →
      load_borough_boundaries read_file fs = Option.none) ∧
    (∀ content gdf, fs BOROUGHS_FILE_PATH = some content →
      read_file content = Except.ok gdf →
      load_borough_boundaries read_file fs = some gdf) := by
  refine ⟨fun h => by simp [load_borough_boundaries, h],
    fun content e hc he => by simp [load_borough_boundaries, hc, he],
    fun content gdf hc hg => by simp [load_borough_boundaries, hc, hg]⟩

/-- Witness for C5: the three cases at concrete filesystems and parsers. -/
theorem load_borough_boundaries_never_raises_witness :
    load_borough_boundaries (fun c => Except.ok (GeoDataFrame.mk c))
        (fun _ => Option.none) = Option.none ∧
    load_borough_boundaries (fun _ => Except.error "bad json")
        (fun _ => some "raw") = Option.none ∧
    load_borough_boundaries (fun c => Except.ok (GeoDataFrame.mk c))
        (fun _ => some "raw") = some (GeoDataFrame.mk "raw") :=
  ⟨(load_borough_boundaries_never_raises (fun c => Except.ok (GeoDataFrame.mk c))
      (fun _ => Option.none)).1 rfl,
   (load_borough_boundaries_never_raises (fun _ => Except.error "bad json")
      (fun _ => some "raw")).2.1 "raw" "bad json" rfl rfl,
   (load_borough_boundaries_never_raises (fun c => Except.ok (GeoDataFrame.mk c))
      (fun _ => some "raw")).2.2 "raw" (GeoDataFrame.mk "raw") rfl rfl⟩

/-! ## Claim C6 -/

/-- Claim C6: cell assignment is deterministic — for every valid (non-null,
non-NaN) coordinate pair and fixed resolution, two calls of
`geo_to_h3_safe` on equal inputs return the same cell id. -/
theorem geo_to_h3_safe_deterministic
    (f : PyFloat → PyFloat → Nat → Except H3Error CellId)
    (lat₁ lon₁ lat₂ lon₂ : PyFloat) (res₁ res₂ : Nat)
    (_hlat_valid : lat₁.isna = false) (_hlon_valid : lon₁.isna = false)
    (hlat : lat₁ = lat₂) (hlon : lon₁ = lon₂) (hres : res₁ = res₂) :
    geo_to_h3_safe f lat₁ lon₁ res₁ = geo_to_h3_safe f lat₂ lon₂ res₂ := by
  subst hlat; subst hlon; subst hres; rfl

/-- Witness for C6: two calls at the same concrete valid coordinates. -/
theorem geo_to_h3_safe_deterministic_witness :
    geo_to_h3_safe (fun _ _ _ => Except.ok 5) (PyFloat.num 40) (PyFloat.num 74) 9
      = geo_to_h3_safe (fun _ _ _ => Except.ok 5)
          (PyFloat.num 40) (PyFloat.num 74) 9 :=
  geo_to_h3_safe_deterministic (fun _ _ _ => Except.ok 5)
    (PyFloat.num 40) (PyFloat.num 74) (PyFloat.num 40) (PyFloat.num 74) 9 9
    (by decide) (by decide) rfl rfl rfl

/-! ## Claim C7 -/

/-- Claim C7: boundary lookup never propagates an error, for every behaviour
of the H3 boundary call: when it raises, `get_h3_boundary_geojson` and
`h3_to_polygon` each return `none` (after logging a warning, not modelled);
when it succeeds, each returns the cell's hexagonal boundary (as a GeoJSON
feature, resp. a polygon with coordinates swapped to (lon, lat)). -/
theorem boundary_lookup_never_raises
    (b : CellId → Bool → Except H3Error (List (Int × Int))) (idx : CellId) :
    (∀ e, b idx true = Except.error e →
      get_h3_boundary_geojson b idx = Option.none) ∧
    (∀ bd, b idx true = Except.ok bd →
      get_h3_boundary_geojson b idx =
        some { type := "Feature", geometryType := "Polygon",
               coordinates := [bd], propertiesId := idx }) ∧
    (∀ e, b idx false = Except.error e → h3_to_polygon b idx = Option.none) ∧
    (∀ bd, b idx false = Except.ok bd →
      h3_to_polygon b idx =
        some { vertices := bd.map (fun q => (q.2, q.1)) }) := by
  refine ⟨fun e he => by simp [get_h3_boundary_geojson, he],
    fun bd hb => by simp [get_h3_boundary_geojson, hb],
    fun e he => by simp [h3_to_polygon, he],
    fun bd hb => by simp [h3_to_polygon, hb]⟩

/-- Witness for C7: a raising and a succeeding boundary call, for both
wrappers, at a concrete cell id and boundary. -/
theorem boundary_lookup_never_raises_witness :
    get_h3_boundary_geojson (fun _ _ => Except.error H3Error.other) 4
        = Option.none ∧
    get_h3_boundary_geojson (fun _ _ => Except.ok [(1, 2), (3, 4)]) 4
        = some { type := "Feature", geometryType := "Polygon",
                 coordinates := [[(1, 2), (3, 4)]], propertiesId := 4 } ∧
    h3_to_polygon (fun _ _ => Except.error H3Error.other) 4 = Option.none ∧
    h3_to_polygon (fun _ _ => Except.ok [(1, 2), (3, 4)]) 4
        = some { vertices := [(2, 1), (4, 3)] } :=
  ⟨(boundary_lookup_never_raises (fun _ _ => Except.error H3Error.other) 4).1
      H3Error.other rfl,
   (boundary_lookup_never_raises (fun _ _ => Except.ok [(1, 2), (3, 4)]) 4).2.1
      [(1, 2), (3, 4)] rfl,
   (boundary_lookup_never_raises (fun _ _ => Except.error H3Error.other) 4).2.2.1
      H3Error.other rfl,
   (boundary_lookup_never_raises (fun _ _ => Except.ok [(1, 2), (3, 4)]) 4).2.2.2
      [(1, 2), (3, 4)] rfl⟩

/-! ## Claim C8 -/

/-- Claim C8: centroid lookup never propagates an error, for every behaviour
of `h3.h3_to_geo`: on failure `get_h3_centroid` returns the pair
(`none`, `none`); on success it returns the (lat, lon) centroid computed by
the library. -/
theorem get_h3_centroid_never_raises
    (g : CellId → Except H3Error (Int × Int)) (idx : CellId) :
    (∀ e, g idx = Except.error e →
      get_h3_centroid g idx = (Option.none, Option.none)) ∧
    (∀ la lo, g idx = Except.ok (la, lo) →
      get_h3_centroid g idx = (some la, some lo)) := by
  refine ⟨fun e he => by simp [get_h3_centroid, he],
    fun la lo hg => by simp [get_h3_centroid, hg]⟩

/-- Witness for C8: a raising and a succeeding centroid call at a concrete
cell id. -/
theorem get_h3_centroid_never_raises_witness :
    get_h3_centroid (fun _ => Except.error H3Error.other) 4
        = (Option.none, Option.none) ∧
    get_h3_centroid (fun _ => Except.ok (40, 74)) 4 = (some 40, some 74) :=
  ⟨(get_h3_centroid_never_raises (fun _ => Except.error H3Error.other) 4).1
      H3Error.other rfl,
   (get_h3_centroid_never_raises (fun _ => Except.ok (40, 74)) 4).2 40 74 rfl⟩

/-! ## Claim C9 -/

/-- Claim C9: whenever `get_h3_boundary_geojson` succeeds, the returned
GeoJSON feature's properties-id equals the input cell id, its geometry type
is "Polygon", and its coordinates hold exactly one ring. -/
theorem get_h3_boundary_geojson_feature_fields
    (b : CellId → Bool → Except H3Error (List (Int × Int))) (idx : CellId)
    (f : GeoJSONFeature) (hs : get_h3_boundary_geojson b idx = some f) :
    f.propertiesId = idx ∧ f.geometryType = "Polygon"
      ∧ f.coordinates.length = 1 := by
  unfold get_h3_boundary_geojson at hs
  cases hb : b idx true with
  | ok bd =>
      rw [hb] at hs
      simp only [Option.some.injEq] at hs
      subst hs
      exact ⟨rfl, rfl, rfl⟩
  | error e => rw [hb] at hs; cases hs

/-- Witness for C9: a succeeding boundary call at a concrete cell id. -/
theorem get_h3_boundary_geojson_feature_fields_witness :
    (7 : CellId) = 7 ∧ "Polygon" = "Polygon" ∧
      ([ [((1 : Int), (2 : Int))] ] : List (List (Int × Int))).length = 1 :=
  get_h3_boundary_geojson_feature_fields (fun _ _ => Except.ok [(1, 2)]) 7
    { type := "Feature", geometryType := "Polygon",
      coordinates := [[(1, 2)]], propertiesId := 7 } rfl

/-! ## Claim C10 -/

/-- Claim C10: whenever `h3_to_polygon` succeeds, the vertices of the
returned polygon are exactly the H3 cell boundary vertices returned by the
library, in the same order, with each (lat, lon) pair swapped to
(lon, lat). -/
theorem h3_to_polygon_swaps_coords
    (b : CellId → Bool → Except H3Error (List (Int × Int))) (idx : CellId)
    (bd : List (Int × Int)) (p : SPolygon)
    (hb : b idx false = Except.ok bd)
    (hs : h3_to_polygon b idx = some p) :
    p.vertices = bd.map (fun q => (q.2, q.1)) := by
  unfold h3_to_polygon at hs
  rw [hb] at hs
  simp only [Option.some.injEq] at hs
  subst hs
  rfl

/-- Witness for C10: a succeeding boundary call at a concrete boundary. -/
theorem h3_to_polygon_swaps_coords_witness :
    (SPolygon.mk [((2 : Int), (1 : Int)), (4, 3)]).vertices
      = ([(1, 2), (3, 4)] : List (Int × Int)).map (fun q => (q.2, q.1)) :=
  h3_to_polygon_swaps_coords (fun _ _ => Except.ok [(1, 2), (3, 4)]) 4
    [(1, 2), (3, 4)] (SPolygon.mk [(2, 1), (4, 3)]) rfl (by rfl)

end TaxiDemand
